import Mathlib

set_option maxHeartbeats 1000000

/-!
Verification of the COMS-1 LRIT header parser (`coms.py`).

The Python class `COMS` holds the raw file bytes (`lritString`), a byte
cursor (`byteOffset`) and one mutable dictionary per header type; each
`parseXHeader` method checks a signature at the cursor, fills its
dictionary and advances the cursor.  The embedding below represents the
object state as `COMSState`, each per-type dictionary as an `HDict`
(whose `valid` key and payload may each be absent, as in a fresh Python
dict), and each parse method as a function on `COMSState`.  Methods that
can raise an unhandled Python exception (`ValueError` from `str.index`,
`UnicodeDecodeError` from `bytes.decode`) return `Except PyErr COMSState`;
the others are total.  Python `bytes` values are `List Nat`.

`bytes.decode` is modelled for ASCII inputs only (a byte at or above 128
is mapped to an error, where real UTF-8 decoding may succeed on
multi-byte sequences); every theorem that goes through decoded text
therefore restricts the text bytes to values below 128.  Console output
and the sidecar-file write in `parseImageDataFunctionHeader` are I/O
effects outside the decoded record and are not modelled.
-/

/-- Python exceptions that the parsing methods can raise. -/
inductive PyErr where
  | valueError
  | unicodeDecodeError
deriving DecidableEq

/-- Forget which exception occurred: `some` on success, `none` on a raise. -/
def toOpt {α : Type} : Except PyErr α → Option α
  | .ok a => some a
  | .error _ => none

/-- Big-endian byte interpretation, as Python `int.from_bytes(b, byteorder='big')`
(which returns 0 on an empty byte string). -/
def intFromBytes (l : List Nat) : Nat := l.foldl (fun a b => a * 256 + b) 0

/-- Positional (specification-side) big-endian value of a byte list. -/
def beVal : List Nat → Nat
  | [] => 0
  | b :: t => b * 256 ^ t.length + beVal t

/-- Binary digits of `n`, most significant first, as Python `bin(n)[2:]` for
`n > 0`; fuel-driven so that it computes by kernel reduction. -/
def natToBinAux : Nat → Nat → List Char
  | _, 0 => []
  | 0, _ + 1 => []
  | fuel + 1, n + 1 =>
      natToBinAux fuel ((n + 1) / 2) ++ [if (n + 1) % 2 = 1 then '1' else '0']

/-- Python `bin(n)[2:]` (so `natToBin 0 = ['0']`). -/
def natToBin (n : Nat) : List Char := if n = 0 then ['0'] else natToBinAux n n

/-- Left-pad with zero characters, as Python `str.zfill`. -/
def zfill (w : Nat) (l : List Char) : List Char :=
  List.replicate (w - l.length) '0' ++ l

/-- Numeric value of one binary digit character. -/
def binVal (c : Char) : Nat := if c = '1' then 1 else 0

/-- Value of a binary digit string, as Python `int(s, 2)` on strings of
zero and one characters. -/
def binToNat (l : List Char) : Nat := l.foldl (fun a c => a * 2 + binVal c) 0

/-- Whether the second list is a leading segment of the first. -/
def beginsWith : List Char → List Char → Bool
  | _, [] => true
  | [], _ :: _ => false
  | a :: s, b :: t => a == b && beginsWith s t

/-- Index of the first occurrence of a substring, as Python `str.index`:
`ValueError` when absent. -/
def pyIndexSub : List Char → List Char → Except PyErr Nat
  | [], sub => if beginsWith [] sub then .ok 0 else .error .valueError
  | a :: t, sub =>
    if beginsWith (a :: t) sub then .ok 0
    else
      match pyIndexSub t sub with
      | .ok i => .ok (i + 1)
      | .error e => .error e

/-- Python's `sub in s` test on strings. -/
def pyContains (s sub : List Char) : Bool :=
  match pyIndexSub s sub with
  | .ok _ => true
  | .error _ => false

/-- Characters of an ASCII byte list. -/
def asciiChars (l : List Nat) : List Char := l.map (fun b => Char.ofNat b)

/-- Python `bytes.decode()` restricted to ASCII (see the file header note). -/
def asciiDecode (l : List Nat) : Except PyErr (List Char) :=
  if l.all (fun b => decide (b < 128)) then .ok (asciiChars l)
  else .error .unicodeDecodeError

/-- Two-digit zero-padded decimal rendering, as in `strftime` fields. -/
def pad2 (n : Nat) : String := if n < 10 then "0" ++ toString n else toString n

/-- Gregorian `(year, month, day)` for a day number, via the standard
civil-from-days algorithm, mirroring Python `datetime` date arithmetic;
the argument is days since 1958-01-01 shifted by 715085 so the whole
computation stays in `Nat`. -/
def civilFromDays (z : Nat) : Nat × Nat × Nat :=
  let era := z / 146097
  let doe := z % 146097
  let yoe := (doe - doe / 1460 + doe / 36524 - doe / 146096) / 365
  let doy := doe - (365 * yoe + yoe / 4 - yoe / 100)
  let mp := (5 * doy + 2) / 153
  let d := doy - (153 * mp + 2) / 5 + 1
  let m := if mp < 10 then mp + 3 else mp - 9
  let y := yoe + era * 400 + (if m ≤ 2 then 1 else 0)
  (y, m, d)

/-- `strftime('%d/%m/%Y')` of the date 1958-01-01 plus `dayCount` days. -/
def formatDMY (dayCount : Nat) : String :=
  let c := civilFromDays (715085 + dayCount)
  pad2 c.2.2 ++ "/" ++ pad2 c.2.1 ++ "/" ++ toString c.1

/-- `strftime('%H:%M:%S')` of the instant `ms` milliseconds past the
1958-01-01 midnight epoch. -/
def formatHMS (ms : Nat) : String :=
  let secs := ms / 1000 % 86400
  pad2 (secs / 3600) ++ ":" ++ pad2 (secs % 3600 / 60) ++ ":" ++ pad2 (secs % 60)

/-! ### String constants appearing in the source -/

def geosProjName : String := "Normalized Geostationary Projection (GEOS)"

def geosStr : String := "GEOS"

def extNoneStr : String := "0 (No extension)"

def extSuffixStr : String := " (Extended field)"

def extSetStr : String := "1 (Extended field)"

def tcLevel1Str : String := "100 (1958 January 1 epoch - Level 1 Time Code)"

def tcLevel2Str : String := "010 (Agency-defined epoch - Level 2 Time Code)"

def lritExtStr : String := ".lrit"

def idfSuffixStr : String := "_IDF-DDB.txt"

/-- Path used for the concrete decode scenarios below. -/
def fpath : String := "file.lrit"

/-- The sidecar filename `parseImageDataFunctionHeader` derives from `fpath`. -/
def idfOutName : String := "file_IDF-DDB.txt"

/-! ### Header records

Each Python header dictionary is an `HDict`: the `valid` key and the
payload keys may each still be absent (`none`), as in a freshly
constructed `COMS` object. -/

structure HDict (α : Type) where
  valid : Option Bool
  fields : Option α
deriving DecidableEq

def emptyDict {α : Type} : HDict α := ⟨none, none⟩

structure PrimaryFields where
  header_type : Nat
  header_len : Nat
  header_offset : Nat
  file_type : Nat
  total_header_len : Nat
  data_field_len : Nat
deriving DecidableEq

structure ImageStructureFields where
  header_type : Nat
  header_len : Nat
  header_offset : Nat
  bits_per_pixel : List Nat
  num_cols : Nat
  num_lines : Nat
  image_type : Option Nat
  image_compression : Nat
deriving DecidableEq

structure ImageNavigationFields where
  header_type : Nat
  header_len : Nat
  header_offset : Nat
  projection : Option String
  longitude : String
  col_scaling : Nat
  line_scaling : Nat
  col_offset : Nat
  line_offset : Nat
deriving DecidableEq

structure ImageDataFunctionFields where
  header_type : Nat
  header_len : Nat
  header_offset : Nat
  data_definition_block : String
  data_definition_block_filename : String
deriving DecidableEq

structure AnnotationTextFields where
  header_type : Nat
  header_len : Nat
  header_offset : Nat
  text_data : String
deriving DecidableEq

structure TimestampFields where
  header_type : Nat
  header_len : Nat
  header_offset : Nat
  p_field : String
  p_field_ext_flag : String
  p_field_time_code : Option String
  p_field_detail_bits : String
  t_field : String
  t_field_day_count : Nat
  t_field_current_date : String
  t_field_millis : Nat
  t_field_current_time : String
deriving DecidableEq

structure AncillaryTextFields where
  header_type : Nat
  header_len : Nat
  header_offset : Nat
deriving DecidableEq

structure KeyFields where
  header_type : Nat
  header_len : Nat
  header_offset : Nat
  key : Nat
deriving DecidableEq

structure SegmentationFields where
  header_type : Nat
  header_len : Nat
  header_offset : Nat
  segment_num : Nat
  segment_total : Nat
  line_num_of_segment : Nat
deriving DecidableEq

/-- The `COMS` object state: file path, raw bytes, cursor, and the nine
per-type dictionaries. -/
structure COMSState where
  path : String
  lritString : List Nat
  byteOffset : Nat
  primaryHeader : HDict PrimaryFields
  imageStructureHeader : HDict ImageStructureFields
  imageNavigationHeader : HDict ImageNavigationFields
  imageDataFunctionHeader : HDict ImageDataFunctionFields
  annotationTextHeader : HDict AnnotationTextFields
  timestampHeader : HDict TimestampFields
  ancillaryTextHeader : HDict AncillaryTextFields
  keyHeader : HDict KeyFields
  imageSegmentationInformationHeader : HDict SegmentationFields
deriving DecidableEq

/-- A freshly constructed `COMS` object on a loaded file: cursor 0 and
all header dictionaries empty. -/
def initState (path : String) (bytes : List Nat) : COMSState :=
  { path := path
    lritString := bytes
    byteOffset := 0
    primaryHeader := emptyDict
    imageStructureHeader := emptyDict
    imageNavigationHeader := emptyDict
    imageDataFunctionHeader := emptyDict
    annotationTextHeader := emptyDict
    timestampHeader := emptyDict
    ancillaryTextHeader := emptyDict
    keyHeader := emptyDict
    imageSegmentationInformationHeader := emptyDict }

/-- `readbytes`: `self.lritString[self.byteOffset+offset : self.byteOffset+offset+length]`.
Python slicing clips to the buffer, so a read past the end is silently
truncated, never an error. -/
def readbytes (s : COMSState) (offset : Nat) (length : Nat) : List Nat :=
  (s.lritString.drop (s.byteOffset + offset)).take length

/-- The `image_type` chain inside `parseImageStructureHeader`: the value the
`image_type` key receives, `none` when no branch assigns it. -/
def imageTypeOf (num_cols num_lines : Nat) : Option Nat :=
  if num_cols = 2200 ∧ num_lines = 2200 then some 0
  else if num_cols = 1547 ∧ (num_lines = 308 ∨ num_lines = 309) then some 1
  else if num_cols = 1547 ∧ num_lines = 318 then some 2
  else if num_cols = 810 ∧ num_lines = 611 then some 3
  else none

/-! ### The nine parse methods -/

/-- `parsePrimaryHeader` (type 0, signature `00 00 10`, fixed length 16). -/
def parsePrimaryHeader (s : COMSState) : COMSState :=
  if readbytes s 0 3 = [0x00, 0x00, 0x10] then
    { s with
      primaryHeader := ⟨some true, some
        { header_type := 0
          header_len := 16
          header_offset := s.byteOffset
          file_type := intFromBytes (readbytes s 3 1)
          total_header_len := intFromBytes (readbytes s 4 4)
          data_field_len := intFromBytes (readbytes s 8 8) }⟩
      byteOffset := s.byteOffset + 16 }
  else { s with primaryHeader := { s.primaryHeader with valid := some false } }

/-- `parseImageStructureHeader` (type 1, signature `01 00 09`, fixed length 9).
`bits_per_pixel` is stored as the raw byte string, as in the source. -/
def parseImageStructureHeader (s : COMSState) : COMSState :=
  if readbytes s 0 3 = [0x01, 0x00, 0x09] then
    { s with
      imageStructureHeader := ⟨some true, some
        { header_type := 1
          header_len := 9
          header_offset := s.byteOffset
          bits_per_pixel := readbytes s 3 1
          num_cols := intFromBytes (readbytes s 4 2)
          num_lines := intFromBytes (readbytes s 6 2)
          image_type := imageTypeOf (intFromBytes (readbytes s 4 2))
            (intFromBytes (readbytes s 6 2))
          image_compression := intFromBytes (readbytes s 8 1) }⟩
      byteOffset := s.byteOffset + 9 }
  else
    { s with
      imageStructureHeader := { s.imageStructureHeader with valid := some false } }

/-- `parseImageNavigationHeader` (type 2, signature `02 00 33`, fixed length 51).
The longitude is the slice of the projection string between the first
opening and the first closing parenthesis; `str.index` raises `ValueError`
when the character is absent. -/
def parseImageNavigationHeader (s : COMSState) : Except PyErr COMSState :=
  if readbytes s 0 3 = [0x02, 0x00, 0x33] then
    match asciiDecode (readbytes s 3 32) with
    | .error e => .error e
    | .ok projectionString =>
      match pyIndexSub projectionString ['('] with
      | .error e => .error e
      | .ok i =>
        match pyIndexSub projectionString [')'] with
        | .error e => .error e
        | .ok j =>
          .ok { s with
            imageNavigationHeader := ⟨some true, some
              { header_type := 2
                header_len := 51
                header_offset := s.byteOffset
                projection :=
                  if pyContains projectionString geosStr.toList then some geosProjName
                  else none
                longitude := String.mk ((projectionString.drop (i + 1)).take (j - (i + 1)))
                col_scaling := intFromBytes (readbytes s 35 4)
                line_scaling := intFromBytes (readbytes s 39 4)
                col_offset := intFromBytes (readbytes s 43 4)
                line_offset := intFromBytes (readbytes s 47 4) }⟩
            byteOffset := s.byteOffset + 51 }
  else
    .ok { s with
      imageNavigationHeader := { s.imageNavigationHeader with valid := some false } }

/-- `parseImageDataFunctionHeader` (type 3, variable length from bytes 1-2).
The source has no `else` branch: on a signature mismatch nothing at all is
recorded.  The write of the text block to a sidecar file is external I/O;
only the derived filename enters the record. -/
def parseImageDataFunctionHeader (s : COMSState) : Except PyErr COMSState :=
  if readbytes s 0 1 = [0x03] then
    match asciiDecode (readbytes s 3 (intFromBytes (readbytes s 1 2) - 3)) with
    | .error e => .error e
    | .ok ddb =>
      match pyIndexSub s.path.toList lritExtStr.toList with
      | .error e => .error e
      | .ok i =>
        .ok { s with
          imageDataFunctionHeader := ⟨some true, some
            { header_type := 3
              header_len := intFromBytes (readbytes s 1 2)
              header_offset := s.byteOffset
              data_definition_block := String.mk ddb
              data_definition_block_filename :=
                String.mk (s.path.toList.take i) ++ idfSuffixStr }⟩
          byteOffset := s.byteOffset + intFromBytes (readbytes s 1 2) }
  else .ok s

/-- `parseAnnotationTextHeader` (type 4, variable length from bytes 1-2).
The source's `else` branch sets `imageNavigationHeader['valid'] = False`,
not `annotationTextHeader['valid']`; the embedding reproduces this. -/
def parseAnnotationTextHeader (s : COMSState) : Except PyErr COMSState :=
  if readbytes s 0 1 = [0x04] then
    match asciiDecode (readbytes s 3 (intFromBytes (readbytes s 1 2) - 3)) with
    | .error e => .error e
    | .ok txt =>
      .ok { s with
        annotationTextHeader := ⟨some true, some
          { header_type := 4
            header_len := intFromBytes (readbytes s 1 2)
            header_offset := s.byteOffset
            text_data := String.mk txt }⟩
        byteOffset := s.byteOffset + intFromBytes (readbytes s 1 2) }
  else
    .ok { s with
      imageNavigationHeader := { s.imageNavigationHeader with valid := some false } }

/-- `parseTimestampHeader` (type 5, signature `05 00 0A`, fixed length 10).
The P and T fields are decomposed through binary digit strings exactly as
the source does with `bin(...)[2:].zfill(...)` and string slices. -/
def parseTimestampHeader (s : COMSState) : COMSState :=
  if readbytes s 0 3 = [0x05, 0x00, 0x0A] then
    let pFieldInt := intFromBytes (readbytes s 3 1)
    let p_field := zfill 8 (natToBin pFieldInt)
    let pf0 := p_field.take 1
    let pf1 := (p_field.drop 1).take 3
    let pf2 := (p_field.drop 4).take 4
    let tFieldInt := intFromBytes (readbytes s 4 6)
    let t_field := zfill 48 (natToBin tFieldInt)
    let days := binToNat (t_field.take 16)
    let millis := binToNat ((t_field.drop 16).take 32)
    { s with
      timestampHeader := ⟨some true, some
        { header_type := 5
          header_len := 10
          header_offset := s.byteOffset
          p_field := String.mk p_field
          p_field_ext_flag :=
            if pf0 = ['0'] then extNoneStr else String.mk pf0 ++ extSuffixStr
          p_field_time_code :=
            if pf1 = ['1', '0', '0'] then some tcLevel1Str
            else if pf1 = ['0', '1', '0'] then some tcLevel2Str
            else none
          p_field_detail_bits := String.mk pf2
          t_field := String.mk t_field
          t_field_day_count := days
          t_field_current_date := formatDMY days
          t_field_millis := millis
          t_field_current_time := formatHMS (days * 86400000 + millis) }⟩
      byteOffset := s.byteOffset + 10 }
  else { s with timestampHeader := { s.timestampHeader with valid := some false } }

/-- The signature check of `parseAncillaryTextHeader`.  The source compares
the bound method object itself with a byte string: `if self.readbytes == b'\x06':`
(note the missing call).  In Python a bound method never equals a `bytes`
value, so the condition is constantly false. -/
def ancillarySignatureCheck (_s : COMSState) : Bool := false

/-- `parseAncillaryTextHeader` (type 6).  Because of the broken signature
check its success branch (which records only the lengths, no text) is
unreachable. -/
def parseAncillaryTextHeader (s : COMSState) : COMSState :=
  if ancillarySignatureCheck s then
    { s with
      ancillaryTextHeader := ⟨some true, some
        { header_type := 6
          header_len := intFromBytes (readbytes s 1 2)
          header_offset := s.byteOffset }⟩
      byteOffset := s.byteOffset + intFromBytes (readbytes s 1 2) }
  else
    { s with
      ancillaryTextHeader := { s.ancillaryTextHeader with valid := some false } }

/-- `parseKeyHeader` (type 7, signature `07 00 07`, fixed length 7). -/
def parseKeyHeader (s : COMSState) : COMSState :=
  if readbytes s 0 3 = [0x07, 0x00, 0x07] then
    { s with
      keyHeader := ⟨some true, some
        { header_type := 7
          header_len := 7
          header_offset := s.byteOffset
          key := intFromBytes (readbytes s 3 4) }⟩
      byteOffset := s.byteOffset + 7 }
  else { s with keyHeader := { s.keyHeader with valid := some false } }

/-- `parseImageSegmentationInformationHeader` (type 128, signature `80 00 07`,
fixed length 7). -/
def parseImageSegmentationInformationHeader (s : COMSState) : COMSState :=
  if readbytes s 0 3 = [0x80, 0x00, 0x07] then
    { s with
      imageSegmentationInformationHeader := ⟨some true, some
        { header_type := 128
          header_len := 7
          header_offset := s.byteOffset
          segment_num := intFromBytes (readbytes s 3 1)
          segment_total := intFromBytes (readbytes s 4 1)
          line_num_of_segment := intFromBytes (readbytes s 5 2) }⟩
      byteOffset := s.byteOffset + 7 }
  else
    { s with
      imageSegmentationInformationHeader :=
        { s.imageSegmentationInformationHeader with valid := some false } }

/-! ### Concrete data for the decode scenarios -/

/-- Synthetic file of the round-trip scenario: a Primary, an ImageStructure
(2200 x 2200, 8 bpp, no compression) and a Timestamp header back-to-back. -/
def synthFile : List Nat :=
  [0, 0, 16, 0, 0, 0, 0, 35, 0, 0, 0, 0, 0, 0, 0, 0] ++
    [1, 0, 9, 8, 8, 152, 8, 152, 0] ++ [5, 0, 10, 64, 0, 0, 0, 0, 0, 0]

/-- 32 projection bytes spelling GEOS(128.2) padded with spaces. -/
def geosProjBytes : List Nat :=
  [71, 69, 79, 83, 40, 49, 50, 56, 46, 50, 41] ++ List.replicate 21 32

/-- 32 projection bytes whose first closing parenthesis precedes the first
opening one, padded with spaces. -/
def badProjBytes : List Nat := [41, 40] ++ List.replicate 30 32

/-- 32 projection bytes containing no parenthesis at all. -/
def noParenProjBytes : List Nat := List.replicate 32 65

/-- A state whose ImageNavigation record has already been marked valid,
loaded on a one-byte buffer that fails the AnnotationText signature. -/
def navPreSet : COMSState :=
  { initState fpath [0] with imageNavigationHeader := ⟨some true, none⟩ }

def lonVal : String := "128.2"

def lonEmpty : String := ""

def helloStr : String := "Hello"

def hijkStr : String := "HIJK"

def epochDateStr : String := "01/01/1958"

def epochTimeStr : String := "00:00:00"

def noonStr : String := "12:00:00"

def date21184Str : String := "01/01/2016"

/-! ### Arithmetic meaning of the binary digit strings -/

theorem binToNat_foldl (l : List Char) (a : Nat) :
    l.foldl (fun x c => x * 2 + binVal c) a = a * 2 ^ l.length + binToNat l := by
  induction l generalizing a with
  | nil => simp [binToNat]
  | cons c t ih =>
    show List.foldl _ (a * 2 + binVal c) t = _
    rw [ih]
    have h2 : binToNat (c :: t) = binVal c * 2 ^ t.length + binToNat t := by
      show List.foldl _ (0 * 2 + binVal c) t = _
      rw [ih]
      ring
    rw [h2, List.length_cons]
    ring

theorem binToNat_cons (c : Char) (t : List Char) :
    binToNat (c :: t) = binVal c * 2 ^ t.length + binToNat t := by
  show List.foldl _ (0 * 2 + binVal c) t = _
  rw [binToNat_foldl]
  ring

theorem binToNat_append (l₁ l₂ : List Char) :
    binToNat (l₁ ++ l₂) = binToNat l₁ * 2 ^ l₂.length + binToNat l₂ := by
  show List.foldl _ _ (l₁ ++ l₂) = _
  rw [List.foldl_append, binToNat_foldl]
  rfl

theorem binVal_le_one (c : Char) : binVal c ≤ 1 := by
  unfold binVal
  split <;> omega

theorem binVal_zero : binVal '0' = 0 := by decide

theorem binVal_one : binVal '1' = 1 := by decide

theorem binToNat_lt (l : List Char) : binToNat l < 2 ^ l.length := by
  induction l with
  | nil => simp [binToNat]
  | cons c t ih =>
    rw [binToNat_cons, List.length_cons, pow_succ]
    have h := binVal_le_one c
    rcases Nat.le_one_iff_eq_zero_or_eq_one.mp h with h0 | h0 <;> rw [h0] <;> omega

theorem natToBinAux_val : ∀ fuel n, n ≤ fuel → binToNat (natToBinAux fuel n) = n := by
  intro fuel
  induction fuel with
  | zero =>
    intro n hn
    have h0 : n = 0 := by omega
    subst h0
    simp [natToBinAux, binToNat]
  | succ f ih =>
    intro n hn
    match n with
    | 0 => simp [natToBinAux, binToNat]
    | m + 1 =>
      simp only [natToBinAux]
      rw [binToNat_append]
      have hle : (m + 1) / 2 ≤ f := by omega
      rw [ih _ hle]
      by_cases hmod : (m + 1) % 2 = 1 <;>
        simp [hmod, binToNat, binVal, List.foldl] <;> omega

theorem natToBinAux_len : ∀ fuel n w, n ≤ fuel → n < 2 ^ w →
    (natToBinAux fuel n).length ≤ w := by
  intro fuel
  induction fuel with
  | zero =>
    intro n w hn _
    have h0 : n = 0 := by omega
    subst h0
    simp [natToBinAux]
  | succ f ih =>
    intro n w hn hw
    match n with
    | 0 => simp [natToBinAux]
    | m + 1 =>
      match w with
      | 0 =>
        have h1 : (2 : Nat) ^ 0 = 1 := pow_zero 2
        omega
      | v + 1 =>
        simp only [natToBinAux, List.length_append, List.length_cons, List.length_nil]
        have h1 : (m + 1) / 2 ≤ f := by omega
        have h2 : (m + 1) / 2 < 2 ^ v := by
          have hp : (2 : Nat) ^ (v + 1) = 2 ^ v * 2 := pow_succ 2 v
          omega
        have h3 := ih _ v h1 h2
        omega

theorem natToBinAux_digits : ∀ fuel n, ∀ c ∈ natToBinAux fuel n,
    c = '0' ∨ c = '1' := by
  intro fuel
  induction fuel with
  | zero =>
    intro n c hc
    match n with
    | 0 => simp [natToBinAux] at hc
    | m + 1 => simp [natToBinAux] at hc
  | succ f ih =>
    intro n c hc
    match n with
    | 0 => simp [natToBinAux] at hc
    | m + 1 =>
      simp only [natToBinAux, List.mem_append, List.mem_singleton] at hc
      rcases hc with hc | hc
      · exact ih _ c hc
      · subst hc
        split <;> simp

theorem binToNat_natToBin (n : Nat) : binToNat (natToBin n) = n := by
  unfold natToBin
  split
  · rename_i h0
    subst h0
    decide
  · exact natToBinAux_val n n le_rfl

theorem natToBin_digits (n : Nat) : ∀ c ∈ natToBin n, c = '0' ∨ c = '1' := by
  unfold natToBin
  split
  · intro c hc
    simp at hc
    left
    exact hc
  · exact natToBinAux_digits n n

theorem natToBin_len (n w : Nat) (hw : 0 < w) (h : n < 2 ^ w) :
    (natToBin n).length ≤ w := by
  unfold natToBin
  split
  · simpa using hw
  · exact natToBinAux_len n n w le_rfl h

theorem zfill_length (w : Nat) (l : List Char) (h : l.length ≤ w) :
    (zfill w l).length = w := by
  simp [zfill]
  omega

theorem binToNat_replicate (k : Nat) : binToNat (List.replicate k '0') = 0 := by
  induction k with
  | zero => simp [binToNat]
  | succ m ih =>
    rw [List.replicate_succ, binToNat_cons, binVal_zero, ih]
    ring

theorem binToNat_zfill (w : Nat) (l : List Char) :
    binToNat (zfill w l) = binToNat l := by
  rw [zfill, binToNat_append, binToNat_replicate]
  ring

theorem zfill_digits (w : Nat) (l : List Char) (h : ∀ c ∈ l, c = '0' ∨ c = '1') :
    ∀ c ∈ zfill w l, c = '0' ∨ c = '1' := by
  intro c hc
  rw [zfill] at hc
  rcases List.mem_append.mp hc with hc | hc
  · left
    exact List.eq_of_mem_replicate hc
  · exact h c hc

theorem zfill_natToBin_spec (t w : Nat) (hw : 0 < w) (h : t < 2 ^ w) :
    (zfill w (natToBin t)).length = w ∧ binToNat (zfill w (natToBin t)) = t ∧
      ∀ c ∈ zfill w (natToBin t), c = '0' ∨ c = '1' :=
  ⟨zfill_length w _ (natToBin_len t w hw h),
    by rw [binToNat_zfill, binToNat_natToBin],
    zfill_digits w _ (natToBin_digits t)⟩

theorem binToNat_take_drop (l : List Char) (a b : Nat) (h : l.length = a + b) :
    binToNat (l.take a) = binToNat l / 2 ^ b ∧
      binToNat (l.drop a) = binToNat l % 2 ^ b := by
  have hd : (l.drop a).length = b := by
    rw [List.length_drop]
    omega
  have hv : binToNat (l.drop a) + 2 ^ b * binToNat (l.take a) = binToNat l := by
    conv_rhs => rw [← List.take_append_drop a l]
    rw [binToNat_append, hd]
    ring
  have hb : binToNat (l.drop a) < 2 ^ b := by
    have hx := binToNat_lt (l.drop a)
    rwa [hd] at hx
  have hK : 0 < 2 ^ b := Nat.pos_pow_of_pos b (by omega)
  obtain ⟨h1, h2⟩ := (Nat.div_mod_unique hK).mpr ⟨hv, hb⟩
  exact ⟨h1.symm, h2.symm⟩

theorem binInj : ∀ l₁ l₂ : List Char, (∀ c ∈ l₁, c = '0' ∨ c = '1') →
    (∀ c ∈ l₂, c = '0' ∨ c = '1') → l₁.length = l₂.length →
    binToNat l₁ = binToNat l₂ → l₁ = l₂ := by
  intro l₁
  induction l₁ with
  | nil =>
    intro l₂ _ _ hlen _
    exact (List.length_eq_zero.mp hlen.symm).symm
  | cons c₁ t₁ ih =>
    intro l₂ h₁ h₂ hlen hval
    match l₂ with
    | [] => simp at hlen
    | c₂ :: t₂ =>
      have hlt : t₁.length = t₂.length := by simpa using hlen
      rw [binToNat_cons, binToNat_cons, hlt] at hval
      have hb₁ : binToNat t₁ < 2 ^ t₂.length := by
        rw [← hlt]
        exact binToNat_lt t₁
      have hb₂ : binToNat t₂ < 2 ^ t₂.length := binToNat_lt t₂
      have hc₁ := h₁ c₁ (by simp)
      have hc₂ := h₂ c₂ (by simp)
      have key : ∀ K : Nat, binToNat t₁ < K → binToNat t₂ < K →
          binVal c₁ * K + binToNat t₁ = binVal c₂ * K + binToNat t₂ →
          c₁ = c₂ ∧ binToNat t₁ = binToNat t₂ := by
        intro K hB1 hB2 hv
        rcases hc₁ with h | h <;> rcases hc₂ with h' | h' <;> subst h <;> subst h' <;>
          simp only [binVal_zero, binVal_one] at hv
        · exact ⟨rfl, by omega⟩
        · exact absurd hv (by omega)
        · exact absurd hv (by omega)
        · exact ⟨rfl, by omega⟩
      obtain ⟨hc, ht⟩ := key (2 ^ t₂.length) hb₁ hb₂ hval
      have htail : t₁ = t₂ :=
        ih t₂ (fun c hm => h₁ c (List.mem_cons_of_mem _ hm))
          (fun c hm => h₂ c (List.mem_cons_of_mem _ hm)) hlt ht
      rw [hc, htail]

theorem intFromBytes_foldl (l : List Nat) (a : Nat) :
    l.foldl (fun x b => x * 256 + b) a = a * 256 ^ l.length + beVal l := by
  induction l generalizing a with
  | nil => simp [beVal]
  | cons b t ih =>
    show List.foldl _ (a * 256 + b) t = _
    rw [ih]
    show (a * 256 + b) * 256 ^ t.length + beVal t =
      a * 256 ^ (t.length + 1) + (b * 256 ^ t.length + beVal t)
    ring

theorem intFromBytes_eq_beVal (l : List Nat) : intFromBytes l = beVal l := by
  show List.foldl _ 0 l = _
  rw [intFromBytes_foldl]
  ring

theorem beVal_singleton (b : Nat) : beVal [b] = b := by
  simp [beVal]

/-- The T-field split of `parseTimestampHeader`, read back arithmetically:
the high 16 bits of the 48-bit value are the day count, the low 32 bits
the millisecond count. -/
theorem tfield_split (t : Nat) (h : t < 2 ^ 48) :
    binToNat ((zfill 48 (natToBin t)).take 16) = t / 2 ^ 32 ∧
      binToNat (((zfill 48 (natToBin t)).drop 16).take 32) = t % 2 ^ 32 := by
  obtain ⟨hlen, hval, _⟩ := zfill_natToBin_spec t 48 (by omega) h
  obtain ⟨h1, h2⟩ := binToNat_take_drop (zfill 48 (natToBin t)) 16 32 (by omega)
  constructor
  · rw [h1, hval]
  · have hd : ((zfill 48 (natToBin t)).drop 16).length = 32 := by
      rw [List.length_drop, hlen]
    rw [List.take_of_length_le (le_of_eq hd), h2, hval]

/-- The P-field slices of `parseTimestampHeader`, read back arithmetically. -/
theorem pfield_split (b : Nat) (h : b < 256) :
    binToNat ((zfill 8 (natToBin b)).take 1) = b / 128 ∧
      binToNat (((zfill 8 (natToBin b)).drop 1).take 3) = b / 16 % 8 ∧
      binToNat ((zfill 8 (natToBin b)).drop 4) = b % 16 := by
  obtain ⟨hlen, hval, _⟩ := zfill_natToBin_spec b 8 (by omega) (by omega)
  obtain ⟨h1a, h1b⟩ := binToNat_take_drop (zfill 8 (natToBin b)) 1 7 (by omega)
  obtain ⟨h2a, _⟩ := binToNat_take_drop ((zfill 8 (natToBin b)).drop 1) 3 4
    (by rw [List.length_drop, hlen])
  obtain ⟨_, h3b⟩ := binToNat_take_drop (zfill 8 (natToBin b)) 4 4 (by omega)
  refine ⟨?_, ?_, ?_⟩
  · rw [h1a, hval]
    norm_num
  · rw [h2a, h1b, hval]
    have e1 : (2 : Nat) ^ 7 = 128 := by norm_num
    have e2 : (2 : Nat) ^ 4 = 16 := by norm_num
    rw [e1, e2]
    omega
  · rw [h3b, hval]
    norm_num

theorem pfield_drop4_take (b : Nat) (h : b < 256) :
    ((zfill 8 (natToBin b)).drop 4).take 4 = (zfill 8 (natToBin b)).drop 4 := by
  obtain ⟨hlen, _, _⟩ := zfill_natToBin_spec b 8 (by omega) (by omega)
  exact List.take_of_length_le (by rw [List.length_drop, hlen])

/-- Two binary-digit strings of equal length and equal value are equal. -/
theorem bin_eq_iff_val_eq (l m : List Char) (hdl : ∀ c ∈ l, c = '0' ∨ c = '1')
    (hdm : ∀ c ∈ m, c = '0' ∨ c = '1') (hlen : l.length = m.length) :
    l = m ↔ binToNat l = binToNat m :=
  ⟨fun h => by rw [h], fun h => binInj l m hdl hdm hlen h⟩

theorem asciiDecode_ok (l : List Nat) (h : ∀ b ∈ l, b < 128) :
    asciiDecode l = .ok (asciiChars l) := by
  have hall : (l.all fun b => decide (b < 128)) = true := by
    rw [List.all_eq_true]
    intro b hb
    simpa using h b hb
  simp [asciiDecode, hall]

theorem pyIndexSub_err_kind : ∀ (l sub : List Char) (e : PyErr),
    pyIndexSub l sub = .error e → e = .valueError := by
  intro l
  induction l with
  | nil =>
    intro sub e h
    unfold pyIndexSub at h
    split at h
    · exact absurd h (by simp)
    · rw [Except.error.injEq] at h
      exact h.symm
  | cons a t ih =>
    intro sub e h
    unfold pyIndexSub at h
    split at h
    · exact absurd h (by simp)
    · split at h
      · exact absurd h (by simp)
      · rename_i e' hrec
        rw [Except.error.injEq] at h
        rw [← h]
        exact ih sub e' hrec

theorem pyIndexSub_ok_iff (l : List Char) (c : Char) :
    (∃ i, pyIndexSub l [c] = .ok i) ↔ c ∈ l := by
  induction l with
  | nil => simp [pyIndexSub, beginsWith]
  | cons a t ih =>
    by_cases hac : a = c
    · subst hac
      refine ⟨fun _ => List.mem_cons_self a t, fun _ => ⟨0, ?_⟩⟩
      simp [pyIndexSub, beginsWith]
    · have hb : beginsWith (a :: t) [c] = false := by
        simp [beginsWith, hac]
      simp only [pyIndexSub, hb, Bool.false_eq_true, if_false]
      constructor
      · rintro ⟨i, hi⟩
        cases hres : pyIndexSub t [c] with
        | error e =>
          rw [hres] at hi
          simp at hi
        | ok j =>
          exact List.mem_cons_of_mem a (ih.mp ⟨j, hres⟩)
      · intro hc
        rcases List.mem_cons.mp hc with h | h
        · exact absurd h.symm hac
        · obtain ⟨i, hi⟩ := ih.mpr h
          exact ⟨i + 1, by rw [hi]⟩

theorem pyIndexSub_err_iff (l : List Char) (c : Char) :
    pyIndexSub l [c] = .error .valueError ↔ c ∉ l := by
  constructor
  · intro h hmem
    obtain ⟨i, hi⟩ := (pyIndexSub_ok_iff l c).mpr hmem
    rw [h] at hi
    simp at hi
  · intro h
    cases hres : pyIndexSub l [c] with
    | ok i => exact absurd ((pyIndexSub_ok_iff l c).mp ⟨i, hres⟩) h
    | error e => rw [pyIndexSub_err_kind l [c] e hres]

/-! ### Claims -/

/-- C10: For every input buffer, including one beginning with the correct
type byte 0x06, `parseAncillaryTextHeader` marks its record invalid and
leaves the cursor unchanged; its success branch is unreachable because the
source compares the `readbytes` method object itself, not the bytes it
would return, with the signature. -/
theorem coms_C10_ancillary_always_invalid (s : COMSState) :
    parseAncillaryTextHeader s =
      { s with ancillaryTextHeader :=
          { s.ancillaryTextHeader with valid := some false } } ∧
    (parseAncillaryTextHeader s).byteOffset = s.byteOffset ∧
    (parseAncillaryTextHeader s).ancillaryTextHeader.valid = some false :=
  ⟨rfl, rfl, rfl⟩

/-- C3 counterexample: on the 3-byte buffer `00 00 10`, a read of 8 bytes at
relative offset 8 silently returns 0 bytes instead of failing, and
`parsePrimaryHeader` succeeds, fabricating zero-valued fields from the
truncated reads and advancing the cursor to 16, past the end of the
3-byte buffer — no `TruncatedBuffer` error exists anywhere. -/
theorem coms_C3_counterexample :
    (readbytes (initState fpath [0, 0, 16]) 8 8).length = 0 ∧
    (parsePrimaryHeader (initState fpath [0, 0, 16])).primaryHeader.valid = some true ∧
    (parsePrimaryHeader (initState fpath [0, 0, 16])).primaryHeader.fields =
      some ⟨0, 16, 0, 0, 0, 0⟩ ∧
    (parsePrimaryHeader (initState fpath [0, 0, 16])).byteOffset = 16 ∧
    ([0, 0, 16] : List Nat).length = 3 := by
  decide

/-- C3 amended: `readbytes` never fails; a read of `n` bytes returns the
Python slice, whose length is `min n (available bytes past the read
position)` — reads past the end are silently truncated, possibly to
nothing, and decoding can therefore produce records from truncated reads
(see the counterexample). -/
theorem coms_C3_truncated_reads (s : COMSState) (off n : Nat) :
    (readbytes s off n).length =
      min n (s.lritString.length - (s.byteOffset + off)) := by
  rw [readbytes, List.length_take, List.length_drop]

/-- C2 at the failing inputs: on a buffer whose first byte matches neither
type 3 nor type 4, `parseImageDataFunctionHeader` records nothing at all
(the returned state is unchanged), and `parseAnnotationTextHeader` records
the failure in the ImageNavigation dictionary instead of its own, leaving
`annotationTextHeader` untouched.  Both leave the cursor unchanged. -/
theorem coms_C2_signature_mismatch_eval :
    toOpt (parseImageDataFunctionHeader (initState fpath [255])) =
      some (initState fpath [255]) ∧
    toOpt (parseAnnotationTextHeader (initState fpath [255])) =
      some { initState fpath [255] with
        imageNavigationHeader := ⟨some false, none⟩ } ∧
    (initState fpath [255]).imageNavigationHeader = ⟨none, none⟩ ∧
    (initState fpath [255]).annotationTextHeader = ⟨none, none⟩ := by
  decide

/-- C8 at the failing input: a failed AnnotationText signature check
mutates the stored ImageNavigation record (flipping its `valid` from
`some true` to `some false`) while leaving the AnnotationText record
untouched — a failed decode of one header type does modify the stored
record of a different header type. -/
theorem coms_C8_cross_record_eval :
    navPreSet.imageNavigationHeader = ⟨some true, none⟩ ∧
    (toOpt (parseAnnotationTextHeader navPreSet)).map
        (fun s => (s.imageNavigationHeader, s.annotationTextHeader, s.byteOffset)) =
      some (⟨some false, none⟩, ⟨none, none⟩, 0) ∧
    (⟨some false, none⟩ : HDict ImageNavigationFields) ≠ ⟨some true, none⟩ := by
  decide

/-- C6 counterexample: on the buffer `06 00 05 41 42` — type byte 6, a
2-byte big-endian length of 5 and two text bytes — the AncillaryText
decoder does not read the length, extract the text or advance the cursor
by 5; it marks the record invalid and leaves the cursor at 0. -/
theorem coms_C6_counterexample :
    (parseAncillaryTextHeader (initState fpath [6, 0, 5, 65, 66])).byteOffset = 0 ∧
    (parseAncillaryTextHeader (initState fpath [6, 0, 5, 65, 66])).ancillaryTextHeader =
      ⟨some false, none⟩ := by
  decide

/-- C9 counterexample: the projection string `)(` padded with spaces
contains both parentheses but the opening one is not first, so it falls in
the claim's error class; yet the decode does not raise — it returns a
valid record whose longitude is the empty string (the Python slice with
crossed indices is empty, not an error). -/
theorem coms_C9_counterexample :
    ('(' ∈ asciiChars badProjBytes) ∧ (')' ∈ asciiChars badProjBytes) ∧
    toOpt (pyIndexSub (asciiChars badProjBytes) ['(']) = some 1 ∧
    toOpt (pyIndexSub (asciiChars badProjBytes) [')']) = some 0 ∧
    (toOpt (parseImageNavigationHeader
        (initState fpath (2 :: 0 :: 51 :: badProjBytes)))).map
        (fun s => (s.imageNavigationHeader.valid,
          s.imageNavigationHeader.fields.map (fun f => f.longitude))) =
      some (some true, some lonEmpty) := by
  decide

/-- C5: The image geometry classifier is a pure function of the
`(num_cols, num_lines)` pair: `(2200,2200)` maps to Full Disk (0),
`(1547,308)` and `(1547,309)` to ENH (1), `(1547,318)` to LSH (2),
`(810,611)` to APNH (3), and every other pair yields no classification;
decoding an ImageStructure header with an unclassified pair (here `(1,1)`)
still produces a valid record with `image_type` absent — unknown geometry
is not a decode failure. -/
theorem coms_C5_geometry (c l : Nat)
    (h : ¬((c = 2200 ∧ l = 2200) ∨ (c = 1547 ∧ (l = 308 ∨ l = 309)) ∨
      (c = 1547 ∧ l = 318) ∨ (c = 810 ∧ l = 611))) :
    imageTypeOf 2200 2200 = some 0 ∧ imageTypeOf 1547 308 = some 1 ∧
    imageTypeOf 1547 309 = some 1 ∧ imageTypeOf 1547 318 = some 2 ∧
    imageTypeOf 810 611 = some 3 ∧ imageTypeOf c l = none ∧
    (parseImageStructureHeader (initState fpath [1, 0, 9, 8, 0, 1, 0, 1, 0])).imageStructureHeader =
      ⟨some true, some ⟨1, 9, 0, [8], 1, 1, none, 0⟩⟩ ∧
    (parseImageStructureHeader (initState fpath [1, 0, 9, 8, 0, 1, 0, 1, 0])).byteOffset = 9 := by
  refine ⟨by decide, by decide, by decide, by decide, by decide, ?_, by decide, by decide⟩
  have h1 : ¬(c = 2200 ∧ l = 2200) := by tauto
  have h2 : ¬(c = 1547 ∧ (l = 308 ∨ l = 309)) := by tauto
  have h3 : ¬(c = 1547 ∧ l = 318) := by tauto
  have h4 : ¬(c = 810 ∧ l = 611) := by tauto
  simp [imageTypeOf, h1, h2, h3, h4]

/-- Witness for C5 at the pair `(1,1)`. -/
theorem coms_C5_witness :
    (¬(((1 : Nat) = 2200 ∧ (1 : Nat) = 2200) ∨
      ((1 : Nat) = 1547 ∧ ((1 : Nat) = 308 ∨ (1 : Nat) = 309)) ∨
      ((1 : Nat) = 1547 ∧ (1 : Nat) = 318) ∨ ((1 : Nat) = 810 ∧ (1 : Nat) = 611))) ∧
    imageTypeOf 1 1 = none :=
  ⟨by decide, (coms_C5_geometry 1 1 (by decide)).2.2.2.2.2.1⟩

/-- C4: Timestamp decoding splits the 48-bit unsigned T-field read from
bytes 4-9 into the high 16 bits (whole days since 1958-01-01) and the low
32 bits (milliseconds of day); the derived wall-clock strings are the
1958-01-01 epoch plus those days and milliseconds.  Day 0 / millisecond 0
decode to `01/01/1958` `00:00:00`; day 21184 / millisecond 43200000
decode to exactly 21184 days (date `01/01/2016`) and `12:00:00`. -/
theorem coms_C4_timestamp_split (b4 b5 b6 b7 b8 b9 : Nat)
    (hb : b4 < 256 ∧ b5 < 256 ∧ b6 < 256 ∧ b7 < 256 ∧ b8 < 256 ∧ b9 < 256) :
    (parseTimestampHeader (initState fpath [5, 0, 10, 64, b4, b5, b6, b7, b8, b9])).timestampHeader.valid = some true ∧
    (parseTimestampHeader (initState fpath [5, 0, 10, 64, b4, b5, b6, b7, b8, b9])).byteOffset = 10 ∧
    (∃ tf, (parseTimestampHeader (initState fpath [5, 0, 10, 64, b4, b5, b6, b7, b8, b9])).timestampHeader.fields = some tf ∧
      tf.t_field_day_count = intFromBytes [b4, b5, b6, b7, b8, b9] / 2 ^ 32 ∧
      tf.t_field_day_count = beVal [b4, b5] ∧
      tf.t_field_millis = intFromBytes [b4, b5, b6, b7, b8, b9] % 2 ^ 32 ∧
      tf.t_field_millis = beVal [b6, b7, b8, b9] ∧
      tf.t_field_current_date = formatDMY (intFromBytes [b4, b5, b6, b7, b8, b9] / 2 ^ 32) ∧
      tf.t_field_current_time = formatHMS (intFromBytes [b4, b5, b6, b7, b8, b9] / 2 ^ 32 * 86400000 +
        intFromBytes [b4, b5, b6, b7, b8, b9] % 2 ^ 32)) ∧
    ((parseTimestampHeader (initState fpath [5, 0, 10, 64, 0, 0, 0, 0, 0, 0])).timestampHeader.fields.map
        (fun tf => (tf.t_field_day_count, tf.t_field_millis, tf.t_field_current_date, tf.t_field_current_time)) =
      some (0, 0, epochDateStr, epochTimeStr)) ∧
    ((parseTimestampHeader (initState fpath [5, 0, 10, 64, 82, 192, 2, 147, 46, 0])).timestampHeader.fields.map
        (fun tf => (tf.t_field_day_count, tf.t_field_millis, tf.t_field_current_date, tf.t_field_current_time)) =
      some (21184, 43200000, date21184Str, noonStr)) := by
  obtain ⟨h4, h5, h6, h7, h8, h9⟩ := hb
  have hp48 : (2 : Nat) ^ 48 = 281474976710656 := by norm_num
  have hp32 : (2 : Nat) ^ 32 = 4294967296 := by norm_num
  have hval : intFromBytes [b4, b5, b6, b7, b8, b9] =
      ((((b4 * 256 + b5) * 256 + b6) * 256 + b7) * 256 + b8) * 256 + b9 := by
    simp [intFromBytes, List.foldl_cons, List.foldl_nil]
  have hlt : intFromBytes [b4, b5, b6, b7, b8, b9] < 2 ^ 48 := by
    rw [hval, hp48]
    omega
  have hhi := (tfield_split (intFromBytes [b4, b5, b6, b7, b8, b9]) hlt).1
  have hlo := (tfield_split (intFromBytes [b4, b5, b6, b7, b8, b9]) hlt).2
  have hbv65 : beVal [b6, b7, b8, b9] = ((b6 * 256 + b7) * 256 + b8) * 256 + b9 := by
    rw [← intFromBytes_eq_beVal]
    simp [intFromBytes, List.foldl_cons, List.foldl_nil]
  have hlow_lt : beVal [b6, b7, b8, b9] < 2 ^ 32 := by
    rw [hbv65, hp32]
    omega
  have hdecomp : intFromBytes [b4, b5, b6, b7, b8, b9] =
      beVal [b6, b7, b8, b9] + 2 ^ 32 * (b4 * 256 + b5) := by
    rw [hval, hbv65, hp32]
    omega
  have hKpos : 0 < (2 : Nat) ^ 32 := Nat.pos_pow_of_pos 32 (by omega)
  have hdiv : intFromBytes [b4, b5, b6, b7, b8, b9] / 2 ^ 32 = beVal [b4, b5] := by
    have hbv45 : beVal [b4, b5] = b4 * 256 + b5 := by
      rw [← intFromBytes_eq_beVal]
      simp [intFromBytes, List.foldl_cons, List.foldl_nil]
    rw [hdecomp, Nat.add_mul_div_left _ _ hKpos, Nat.div_eq_of_lt hlow_lt, hbv45]
    omega
  have hmod : intFromBytes [b4, b5, b6, b7, b8, b9] % 2 ^ 32 = beVal [b6, b7, b8, b9] := by
    rw [hdecomp, Nat.add_mul_mod_self_left, Nat.mod_eq_of_lt hlow_lt]
  refine ⟨rfl, rfl, ⟨_, rfl, ?_, ?_, ?_, ?_, ?_, ?_⟩, by decide, by decide⟩
  · show binToNat ((zfill 48 (natToBin (intFromBytes [b4, b5, b6, b7, b8, b9]))).take 16) =
      intFromBytes [b4, b5, b6, b7, b8, b9] / 2 ^ 32
    exact hhi
  · show binToNat ((zfill 48 (natToBin (intFromBytes [b4, b5, b6, b7, b8, b9]))).take 16) =
      beVal [b4, b5]
    rw [hhi, hdiv]
  · show binToNat (((zfill 48 (natToBin (intFromBytes [b4, b5, b6, b7, b8, b9]))).drop 16).take 32) =
      intFromBytes [b4, b5, b6, b7, b8, b9] % 2 ^ 32
    exact hlo
  · show binToNat (((zfill 48 (natToBin (intFromBytes [b4, b5, b6, b7, b8, b9]))).drop 16).take 32) =
      beVal [b6, b7, b8, b9]
    rw [hlo, hmod]
  · show formatDMY (binToNat ((zfill 48 (natToBin (intFromBytes [b4, b5, b6, b7, b8, b9]))).take 16)) =
      formatDMY (intFromBytes [b4, b5, b6, b7, b8, b9] / 2 ^ 32)
    rw [hhi]
  · show formatHMS (binToNat ((zfill 48 (natToBin (intFromBytes [b4, b5, b6, b7, b8, b9]))).take 16) * 86400000 +
        binToNat (((zfill 48 (natToBin (intFromBytes [b4, b5, b6, b7, b8, b9]))).drop 16).take 32)) =
      formatHMS (intFromBytes [b4, b5, b6, b7, b8, b9] / 2 ^ 32 * 86400000 +
        intFromBytes [b4, b5, b6, b7, b8, b9] % 2 ^ 32)
    rw [hhi, hlo]

/-- Witness for C4 at the all-zero T-field. -/
theorem coms_C4_witness :
    ((0 : Nat) < 256 ∧ (0 : Nat) < 256 ∧ (0 : Nat) < 256 ∧ (0 : Nat) < 256 ∧
      (0 : Nat) < 256 ∧ (0 : Nat) < 256) ∧
    (parseTimestampHeader (initState fpath [5, 0, 10, 64, 0, 0, 0, 0, 0, 0])).timestampHeader.valid = some true :=
  ⟨by decide, (coms_C4_timestamp_split 0 0 0 0 0 0 (by decide)).1⟩

/-- C7: Timestamp decoding decomposes the P-field byte at offset 3 into
bit 0 (extension flag), bits 1-3 (time-code identifier) and bits 4-7
(detail bits, retained verbatim); identifier 100₂ (= 4) is recognized as
the 1958-epoch Level-1 code, 010₂ (= 2) as the agency-defined Level-2
code, and any other identifier leaves the dedicated time-code entry
absent while remaining recoverable verbatim from the retained `p_field`
digit string. -/
theorem coms_C7_pfield (pf : Nat) (h : pf < 256) :
    ∃ tf, (parseTimestampHeader (initState fpath [5, 0, 10, pf, 0, 0, 0, 0, 0, 0])).timestampHeader.fields = some tf ∧
      tf.p_field = String.mk (zfill 8 (natToBin pf)) ∧
      binToNat tf.p_field.toList = pf ∧
      binToNat (tf.p_field.toList.take 1) = pf / 128 ∧
      binToNat ((tf.p_field.toList.drop 1).take 3) = pf / 16 % 8 ∧
      binToNat (tf.p_field.toList.drop 4) = pf % 16 ∧
      tf.p_field_detail_bits = String.mk (zfill 4 (natToBin (pf % 16))) ∧
      tf.p_field_ext_flag = (if pf / 128 = 0 then extNoneStr else extSetStr) ∧
      tf.p_field_time_code =
        (if pf / 16 % 8 = 4 then some tcLevel1Str
          else if pf / 16 % 8 = 2 then some tcLevel2Str
          else none) := by
  have hpf : intFromBytes [pf] = pf := by
    simp [intFromBytes, List.foldl_cons, List.foldl_nil]
  have hS := zfill_natToBin_spec pf 8 (by omega) (by omega)
  have hsplit := pfield_split pf h
  have hdrop4 := pfield_drop4_take pf h
  have hdig3 : ∀ c ∈ ((zfill 8 (natToBin pf)).drop 1).take 3, c = '0' ∨ c = '1' := by
    intro c hc
    exact hS.2.2 c (List.drop_subset _ _ (List.take_subset _ _ hc))
  have hlen3 : (((zfill 8 (natToBin pf)).drop 1).take 3).length = 3 := by
    rw [List.length_take, List.length_drop, hS.1]
    decide
  refine ⟨_, rfl, ?_, ?_, ?_, ?_, ?_, ?_, ?_, ?_⟩
  · show String.mk (zfill 8 (natToBin (intFromBytes [pf]))) = String.mk (zfill 8 (natToBin pf))
    rw [hpf]
  · show binToNat (zfill 8 (natToBin (intFromBytes [pf]))) = pf
    rw [hpf, binToNat_zfill, binToNat_natToBin]
  · show binToNat ((zfill 8 (natToBin (intFromBytes [pf]))).take 1) = pf / 128
    rw [hpf]
    exact hsplit.1
  · show binToNat (((zfill 8 (natToBin (intFromBytes [pf]))).drop 1).take 3) = pf / 16 % 8
    rw [hpf]
    exact hsplit.2.1
  · show binToNat ((zfill 8 (natToBin (intFromBytes [pf]))).drop 4) = pf % 16
    rw [hpf]
    exact hsplit.2.2
  · show String.mk (((zfill 8 (natToBin (intFromBytes [pf]))).drop 4).take 4) =
        String.mk (zfill 4 (natToBin (pf % 16)))
    rw [hpf, hdrop4]
    congr 1
    apply binInj
    · intro c hc
      exact hS.2.2 c (List.drop_subset _ _ hc)
    · exact zfill_digits 4 _ (natToBin_digits _)
    · rw [List.length_drop, hS.1, zfill_length 4 _ (natToBin_len _ 4 (by omega) (by omega))]
    · rw [hsplit.2.2, binToNat_zfill, binToNat_natToBin]
  · show (if (zfill 8 (natToBin (intFromBytes [pf]))).take 1 = ['0'] then extNoneStr
        else String.mk ((zfill 8 (natToBin (intFromBytes [pf]))).take 1) ++ extSuffixStr) =
        (if pf / 128 = 0 then extNoneStr else extSetStr)
    rw [hpf]
    by_cases h0 : pf / 128 = 0
    · have he : (zfill 8 (natToBin pf)).take 1 = ['0'] := by
        apply binInj
        · intro c hc
          exact hS.2.2 c (List.take_subset _ _ hc)
        · intro c hc
          rw [List.mem_singleton] at hc
          subst hc
          left
          rfl
        · rw [List.length_take, hS.1]
          decide
        · rw [hsplit.1, h0]
          decide
      rw [he, if_pos rfl, if_pos h0]
    · have h1 : pf / 128 = 1 := by omega
      have he : (zfill 8 (natToBin pf)).take 1 = ['1'] := by
        apply binInj
        · intro c hc
          exact hS.2.2 c (List.take_subset _ _ hc)
        · intro c hc
          rw [List.mem_singleton] at hc
          subst hc
          right
          rfl
        · rw [List.length_take, hS.1]
          decide
        · rw [hsplit.1, h1]
          decide
      rw [he, if_neg (by decide), if_neg h0]
      decide
  · show (if ((zfill 8 (natToBin (intFromBytes [pf]))).drop 1).take 3 = ['1', '0', '0'] then some tcLevel1Str
        else if ((zfill 8 (natToBin (intFromBytes [pf]))).drop 1).take 3 = ['0', '1', '0'] then some tcLevel2Str
        else none) =
        (if pf / 16 % 8 = 4 then some tcLevel1Str
          else if pf / 16 % 8 = 2 then some tcLevel2Str else none)
    rw [hpf]
    by_cases h4v : pf / 16 % 8 = 4
    · have he : ((zfill 8 (natToBin pf)).drop 1).take 3 = ['1', '0', '0'] := by
        apply binInj _ _ hdig3
        · intro c hc
          fin_cases hc <;> simp
        · rw [hlen3]
          rfl
        · rw [hsplit.2.1, h4v]
          decide
      rw [he, if_pos rfl, if_pos h4v]
    · by_cases h2v : pf / 16 % 8 = 2
      · have he : ((zfill 8 (natToBin pf)).drop 1).take 3 = ['0', '1', '0'] := by
          apply binInj _ _ hdig3
          · intro c hc
            fin_cases hc <;> simp
          · rw [hlen3]
            rfl
          · rw [hsplit.2.1, h2v]
            decide
        rw [he, if_neg (by decide), if_pos rfl, if_neg h4v, if_pos h2v]
      · have hne1 : ((zfill 8 (natToBin pf)).drop 1).take 3 ≠ ['1', '0', '0'] := by
          intro he
          have hv := hsplit.2.1
          rw [he] at hv
          have hv4 : binToNat ['1', '0', '0'] = 4 := by decide
          exact h4v (by rw [← hv, hv4])
        have hne2 : ((zfill 8 (natToBin pf)).drop 1).take 3 ≠ ['0', '1', '0'] := by
          intro he
          have hv := hsplit.2.1
          rw [he] at hv
          have hv2 : binToNat ['0', '1', '0'] = 2 := by decide
          exact h2v (by rw [← hv, hv2])
        rw [if_neg hne1, if_neg hne2, if_neg h4v, if_neg h2v]

/-- Witness for C7 at P-field byte 0 (extension flag 0, identifier 0,
which is neither recognized code, detail bits 0000). -/
theorem coms_C7_witness :
    (0 : Nat) < 256 ∧
    ∃ tf, (parseTimestampHeader (initState fpath [5, 0, 10, 0, 0, 0, 0, 0, 0, 0])).timestampHeader.fields = some tf ∧
      tf.p_field = String.mk (zfill 8 (natToBin 0)) ∧
      binToNat tf.p_field.toList = 0 ∧
      binToNat (tf.p_field.toList.take 1) = 0 / 128 ∧
      binToNat ((tf.p_field.toList.drop 1).take 3) = 0 / 16 % 8 ∧
      binToNat (tf.p_field.toList.drop 4) = 0 % 16 ∧
      tf.p_field_detail_bits = String.mk (zfill 4 (natToBin (0 % 16))) ∧
      tf.p_field_ext_flag = (if 0 / 128 = 0 then extNoneStr else extSetStr) ∧
      tf.p_field_time_code =
        (if 0 / 16 % 8 = 4 then some tcLevel1Str
          else if 0 / 16 % 8 = 2 then some tcLevel2Str
          else none) :=
  ⟨by decide, coms_C7_pfield 0 (by decide)⟩

/-- C9 amended: ImageNavigation decoding raises an unhandled `ValueError`
exactly when the 32-byte projection string lacks an opening parenthesis or
lacks a closing parenthesis; when both are present — in either order — the
decode returns a record (the claim's extra "opening one first" condition
does not cause an error: crossed indices just give an empty slice, see the
counterexample). -/
theorem coms_C9_paren_precondition (proj rest : List Nat)
    (hlen : proj.length = 32) (hascii : ∀ b ∈ proj, b < 128) :
    (toOpt (parseImageNavigationHeader (initState fpath (2 :: 0 :: 51 :: (proj ++ rest)))) = none)
      ↔ ('(' ∉ asciiChars proj ∨ ')' ∉ asciiChars proj) := by
  have hread : readbytes (initState fpath (2 :: 0 :: 51 :: (proj ++ rest))) 3 32 = proj := by
    show (proj ++ rest).take 32 = proj
    exact List.take_left' hlen
  have hsig : readbytes (initState fpath (2 :: 0 :: 51 :: (proj ++ rest))) 0 3 = [2, 0, 51] := rfl
  unfold parseImageNavigationHeader
  rw [hsig, if_pos rfl, hread, asciiDecode_ok proj hascii]
  simp only [toOpt]
  cases hop : pyIndexSub (asciiChars proj) ['('] with
  | error e =>
    have he := pyIndexSub_err_kind _ _ _ hop
    subst he
    constructor
    · intro _
      left
      exact (pyIndexSub_err_iff _ _).mp hop
    · intro _
      rfl
  | ok i =>
    cases hcl : pyIndexSub (asciiChars proj) [')'] with
    | error e =>
      have he := pyIndexSub_err_kind _ _ _ hcl
      subst he
      constructor
      · intro _
        right
        exact (pyIndexSub_err_iff _ _).mp hcl
      · intro _
        rfl
    | ok j =>
      constructor
      · intro hnone
        simp at hnone
      · intro hor
        rcases hor with hmem | hmem
        · exact absurd ((pyIndexSub_ok_iff _ _).mp ⟨i, hop⟩) hmem
        · exact absurd ((pyIndexSub_ok_iff _ _).mp ⟨j, hcl⟩) hmem

/-- Witness for C9 at a 32-byte projection string with no parenthesis. -/
theorem coms_C9_witness :
    noParenProjBytes.length = 32 ∧ (∀ b ∈ noParenProjBytes, b < 128) ∧
    ((toOpt (parseImageNavigationHeader (initState fpath (2 :: 0 :: 51 :: (noParenProjBytes ++ [])))) = none)
      ↔ ('(' ∉ asciiChars noParenProjBytes ∨ ')' ∉ asciiChars noParenProjBytes)) :=
  ⟨by decide, by decide, coms_C9_paren_precondition noParenProjBytes [] (by decide) (by decide)⟩

/-- C6 amended: For ImageDataFunction and AnnotationText, the decoder
reads a 2-byte big-endian length at bytes 1-2, takes it as the total
header length including the 3-byte prefix, returns bytes 3..header_len as
the decoded ASCII text payload, and advances the cursor by header_len.
The AncillaryText decoder does none of this: it always marks its record
invalid and leaves the cursor unchanged, and even its unreachable success
branch would extract no text payload. -/
theorem coms_C6_variable_length (L1 L2 : Nat) (text rest : List Nat)
    (hlen : text.length + 3 = beVal [L1, L2])
    (hascii : ∀ b ∈ text, b < 128) :
    (toOpt (parseImageDataFunctionHeader (initState fpath (3 :: L1 :: L2 :: (text ++ rest))))).map
        (fun s => (s.imageDataFunctionHeader, s.byteOffset)) =
      some (⟨some true, some ⟨3, beVal [L1, L2], 0, String.mk (asciiChars text), idfOutName⟩⟩,
        beVal [L1, L2]) ∧
    (toOpt (parseAnnotationTextHeader (initState fpath (4 :: L1 :: L2 :: (text ++ rest))))).map
        (fun s => (s.annotationTextHeader, s.byteOffset)) =
      some (⟨some true, some ⟨4, beVal [L1, L2], 0, String.mk (asciiChars text)⟩⟩,
        beVal [L1, L2]) ∧
    (parseAncillaryTextHeader (initState fpath (6 :: L1 :: L2 :: (text ++ rest)))).ancillaryTextHeader =
      ⟨some false, none⟩ ∧
    (parseAncillaryTextHeader (initState fpath (6 :: L1 :: L2 :: (text ++ rest)))).byteOffset = 0 := by
  have hL : intFromBytes [L1, L2] = beVal [L1, L2] := intFromBytes_eq_beVal _
  have hfname : String.mk (fpath.toList.take 4) ++ idfSuffixStr = idfOutName := by decide
  have hidx : pyIndexSub fpath.toList lritExtStr.toList = Except.ok 4 := rfl
  refine ⟨?_, ?_, rfl, rfl⟩
  · have hrb : readbytes (initState fpath (3 :: L1 :: L2 :: (text ++ rest))) 1 2 = [L1, L2] := rfl
    have htext : readbytes (initState fpath (3 :: L1 :: L2 :: (text ++ rest))) 3
        (intFromBytes [L1, L2] - 3) = text := by
      show (text ++ rest).take (intFromBytes [L1, L2] - 3) = text
      rw [hL]
      have h3 : beVal [L1, L2] - 3 = text.length := by omega
      rw [h3]
      exact List.take_left text rest
    unfold parseImageDataFunctionHeader
    rw [show readbytes (initState fpath (3 :: L1 :: L2 :: (text ++ rest))) 0 1 = [3] from rfl,
      if_pos rfl, hrb, htext, asciiDecode_ok text hascii]
    simp only [toOpt, Option.map, initState]
    rw [hidx]
    simp [hL]
    exact hfname
  · have hrb : readbytes (initState fpath (4 :: L1 :: L2 :: (text ++ rest))) 1 2 = [L1, L2] := rfl
    have htext : readbytes (initState fpath (4 :: L1 :: L2 :: (text ++ rest))) 3
        (intFromBytes [L1, L2] - 3) = text := by
      show (text ++ rest).take (intFromBytes [L1, L2] - 3) = text
      rw [hL]
      have h3 : beVal [L1, L2] - 3 = text.length := by omega
      rw [h3]
      exact List.take_left text rest
    unfold parseAnnotationTextHeader
    rw [show readbytes (initState fpath (4 :: L1 :: L2 :: (text ++ rest))) 0 1 = [4] from rfl,
      if_pos rfl, hrb, htext, asciiDecode_ok text hascii]
    simp only [toOpt, Option.map, initState]
    simp [hL]

/-- Witness for C6: length bytes `00 05`, text "HI". -/
theorem coms_C6_witness :
    ([72, 73] : List Nat).length + 3 = beVal [0, 5] ∧
    (∀ b ∈ ([72, 73] : List Nat), b < 128) ∧
    ((toOpt (parseImageDataFunctionHeader (initState fpath (3 :: 0 :: 5 :: ([72, 73] ++ []))))).map
        (fun s => (s.imageDataFunctionHeader, s.byteOffset)) =
      some (⟨some true, some ⟨3, beVal [0, 5], 0, String.mk (asciiChars [72, 73]), idfOutName⟩⟩,
        beVal [0, 5])) :=
  ⟨by decide, by decide, (coms_C6_variable_length 0 5 [72, 73] [] (by decide) (by decide)).1⟩

/-- C1: For the eight header types other than AncillaryText, decoding a
buffer that starts with the type's declared magic prefix followed by field
values produces a Valid record whose payload fields equal exactly the
encoded (big-endian) values, and advances the cursor by exactly
`header_len`; the synthetic Primary + ImageStructure + Timestamp file
decodes with successive cursor positions 16, 25 and 35.  At the failing
input — an AncillaryText buffer with the correct magic byte 0x06 — the
decoder instead marks the record invalid and leaves the cursor at 0,
because its signature check compares the `readbytes` method object itself
with the magic. -/
theorem coms_C1_decode_roundtrip (ft t1 t2 t3 t4 d1 d2 d3 d4 d5 d6 d7 d8
    bpp c1 c2 l1 l2 comp
    cs1 cs2 cs3 cs4 ls1 ls2 ls3 ls4 co1 co2 co3 co4 lo1 lo2 lo3 lo4
    k1 k2 k3 k4 sn st g1 g2 : Nat) :
    (parsePrimaryHeader (initState fpath (0 :: 0 :: 16 :: ft :: t1 :: t2 :: t3 :: t4 ::
        d1 :: d2 :: d3 :: d4 :: d5 :: d6 :: d7 :: d8 :: []))).primaryHeader =
      ⟨some true, some ⟨0, 16, 0, beVal [ft], beVal [t1, t2, t3, t4],
        beVal [d1, d2, d3, d4, d5, d6, d7, d8]⟩⟩ ∧
    (parsePrimaryHeader (initState fpath (0 :: 0 :: 16 :: ft :: t1 :: t2 :: t3 :: t4 ::
        d1 :: d2 :: d3 :: d4 :: d5 :: d6 :: d7 :: d8 :: []))).byteOffset = 16 ∧
    (parseImageStructureHeader (initState fpath (1 :: 0 :: 9 :: bpp :: c1 :: c2 ::
        l1 :: l2 :: comp :: []))).imageStructureHeader =
      ⟨some true, some ⟨1, 9, 0, [bpp], beVal [c1, c2], beVal [l1, l2],
        imageTypeOf (beVal [c1, c2]) (beVal [l1, l2]), beVal [comp]⟩⟩ ∧
    (parseImageStructureHeader (initState fpath (1 :: 0 :: 9 :: bpp :: c1 :: c2 ::
        l1 :: l2 :: comp :: []))).byteOffset = 9 ∧
    ((toOpt (parseImageNavigationHeader (initState fpath (2 :: 0 :: 51 ::
        (geosProjBytes ++ [cs1, cs2, cs3, cs4, ls1, ls2, ls3, ls4,
          co1, co2, co3, co4, lo1, lo2, lo3, lo4]))))).map
        (fun s => (s.imageNavigationHeader, s.byteOffset)) =
      some (⟨some true, some ⟨2, 51, 0, some geosProjName, lonVal,
        beVal [cs1, cs2, cs3, cs4], beVal [ls1, ls2, ls3, ls4],
        beVal [co1, co2, co3, co4], beVal [lo1, lo2, lo3, lo4]⟩⟩, 51)) ∧
    ((toOpt (parseImageDataFunctionHeader (initState fpath [3, 0, 8, 72, 101, 108, 108, 111]))).map
        (fun s => (s.imageDataFunctionHeader, s.byteOffset)) =
      some (⟨some true, some ⟨3, 8, 0, helloStr, idfOutName⟩⟩, 8)) ∧
    ((toOpt (parseAnnotationTextHeader (initState fpath [4, 0, 7, 72, 73, 74, 75]))).map
        (fun s => (s.annotationTextHeader, s.byteOffset)) =
      some (⟨some true, some ⟨4, 7, 0, hijkStr⟩⟩, 7)) ∧
    (parseTimestampHeader (initState fpath [5, 0, 10, 64, 1, 2, 2, 147, 46, 0])).timestampHeader.valid = some true ∧
    ((parseTimestampHeader (initState fpath [5, 0, 10, 64, 1, 2, 2, 147, 46, 0])).timestampHeader.fields.map
        (fun tf => (tf.t_field_day_count, tf.t_field_millis, tf.t_field_current_time)) =
      some (258, 43200000, noonStr)) ∧
    (parseTimestampHeader (initState fpath [5, 0, 10, 64, 1, 2, 2, 147, 46, 0])).byteOffset = 10 ∧
    (parseKeyHeader (initState fpath (7 :: 0 :: 7 :: k1 :: k2 :: k3 :: k4 :: []))).keyHeader =
      ⟨some true, some ⟨7, 7, 0, beVal [k1, k2, k3, k4]⟩⟩ ∧
    (parseKeyHeader (initState fpath (7 :: 0 :: 7 :: k1 :: k2 :: k3 :: k4 :: []))).byteOffset = 7 ∧
    (parseImageSegmentationInformationHeader (initState fpath (128 :: 0 :: 7 :: sn :: st ::
        g1 :: g2 :: []))).imageSegmentationInformationHeader =
      ⟨some true, some ⟨128, 7, 0, beVal [sn], beVal [st], beVal [g1, g2]⟩⟩ ∧
    (parseImageSegmentationInformationHeader (initState fpath (128 :: 0 :: 7 :: sn :: st ::
        g1 :: g2 :: []))).byteOffset = 7 ∧
    (parseAncillaryTextHeader (initState fpath [6, 0, 4, 90])).ancillaryTextHeader.valid = some false ∧
    (parseAncillaryTextHeader (initState fpath [6, 0, 4, 90])).byteOffset = 0 ∧
    (parsePrimaryHeader (initState fpath synthFile)).byteOffset = 16 ∧
    (parseImageStructureHeader (parsePrimaryHeader (initState fpath synthFile))).byteOffset = 25 ∧
    (parseTimestampHeader (parseImageStructureHeader
      (parsePrimaryHeader (initState fpath synthFile)))).byteOffset = 35 := by
  refine ⟨?_, rfl, ?_, rfl, ?_, by decide, by decide, rfl, by decide, rfl, ?_, rfl, ?_, rfl,
    rfl, rfl, by decide, by decide, by decide⟩
  · simp only [← intFromBytes_eq_beVal]
    rfl
  · simp only [← intFromBytes_eq_beVal]
    rfl
  · simp only [← intFromBytes_eq_beVal]
    rfl
  · simp only [← intFromBytes_eq_beVal]
    rfl
  · simp only [← intFromBytes_eq_beVal]
    rfl
